import Mathlib

/-!
Verification of the core mechanisms of `src/app.py` (a Flask service in front
of a text-generation provider): the per-IP sliding-window rate limiter, the
TTL response cache, the cache-key derivation, the rule tables and prompt
builder, and the `/generate` handler's orchestration.

Shallow-embedding conventions:
* `time.time()` readings are modelled as integers (`ℤ`).  The code only ever
  compares, adds and subtracts clock values, so any linearly ordered additive
  group is adequate; `ℤ` keeps every concrete run kernel-computable.
* Python dicts `_ip_hits` / `_cache` are total functions with a default
  (`fun _ => []`, `fun _ => none`), updated via `Function.update`.
* The configuration constants `RATE_LIMIT_N`, `RATE_LIMIT_WINDOW_SEC` and
  `CACHE_TTL_SEC` are read from the environment at startup, so they appear
  here as parameters `N`, `W`, `ttl`.
* Python's `str.strip()`, `str.lower()` and `in` are re-implemented below on
  `List Char` (`strip_chars`, `lower_chars`, `has_sub`) so that they compute
  by structural recursion; case folding is ASCII (`Char.toLower`), which
  agrees with Python on every concrete input used in this file.
* `_make_cache_key` hashes the joined string with SHA-256.  The hash is a
  deterministic function of the joined string, so key derivation is modelled
  at the pre-hash ("raw") level, which is also the level at which the spec
  states its collision-freedom requirement.
* The external `client.models.generate_content` call is an opaque
  collaborator: its outcome is an explicit argument of type
  `Except String String` (error message raised, or the response text with
  `None` already folded to `""` as in `(response.text or "")`).
-/

/-- Drop leading and trailing whitespace from a character list. -/
def strip_chars (l : List Char) : List Char :=
  ((l.dropWhile Char.isWhitespace).reverse.dropWhile Char.isWhitespace).reverse

/-- Python's `str.strip()`. -/
def py_strip (s : String) : String := ⟨strip_chars s.data⟩

/-- ASCII-fold every character to lower case. -/
def lower_chars (l : List Char) : List Char := l.map Char.toLower

/-- Python's `str.lower()` (ASCII fragment). -/
def py_lower (s : String) : String := ⟨lower_chars s.data⟩

/-- Does `pat` occur at the head of `l`? -/
def starts_with : List Char → List Char → Bool
  | [], _ => true
  | _ :: _, [] => false
  | p :: ps, c :: cs => p == c && starts_with ps cs

/-- Does `pat` occur contiguously anywhere in `l`?  Models Python's
`pat in s` on strings. -/
def has_sub (l pat : List Char) : Bool :=
  if starts_with pat l then true
  else
    match l with
    | [] => false
    | _ :: l' => has_sub l' pat

/-- Python's `sub in s` on strings. -/
def str_contains (s sub : String) : Bool := has_sub s.data sub.data

/-- Embedding of `_rate_limit_check` (src/app.py lines 50-60) acting on the
single window list `_ip_hits[ip]`: filter to timestamps `t` with
`now - t < W`, reject (and persist the filtered list) when the filtered
count reaches `N`, otherwise append `now`, persist and accept. -/
def rate_limit_check (N : ℕ) (W : ℤ) (hits : List ℤ) (now : ℤ) : Bool × List ℤ :=
  let hits' := hits.filter (fun t => decide (now - t < W))
  if N ≤ hits'.length then (false, hits')
  else (true, hits' ++ [now])

/-- `_rate_limit_check` on the whole `_ip_hits` dict: reads the entry for
`ip` (`.get(ip, [])`) and writes the updated window back. -/
def rate_limit_step (N : ℕ) (W : ℤ) (s : String → List ℤ) (ip : String) (now : ℤ) :
    Bool × (String → List ℤ) :=
  let r := rate_limit_check N W (s ip) now
  (r.1, Function.update s ip r.2)

/-- A sequence of `_rate_limit_check` calls for one key, returning the list
of boolean decisions and the final stored window. -/
def run_checks (N : ℕ) (W : ℤ) : List ℤ → List ℤ → List Bool × List ℤ
  | [], hits => ([], hits)
  | t :: ts, hits =>
    let r := rate_limit_check N W hits t
    let rest := run_checks N W ts r.2
    (r.1 :: rest.1, rest.2)

/-- A sequence of `_rate_limit_check` calls on the whole `_ip_hits` dict,
each call tagged with its caller key and its clock reading. -/
def run_steps (N : ℕ) (W : ℤ) (calls : List (String × ℤ)) (s : String → List ℤ) :
    String → List ℤ :=
  calls.foldl (fun s c => (rate_limit_step N W s c.1 c.2).2) s

/-- The `_ip_hits` dict at process start: empty, every key maps to `[]`. -/
def init_hits : String → List ℤ := fun _ => []

/-- Embedding of `_make_cache_key` (src/app.py lines 63-65) up to the final
SHA-256: the joined pre-hash string
`f"{grade}|{subject}|{level}|{style}|{topic.strip().lower()}"`. -/
def make_cache_key_raw (grade subject level style topic : String) : String :=
  grade ++ "|" ++ subject ++ "|" ++ level ++ "|" ++ style ++ "|" ++ py_lower (py_strip topic)

/-- The `_cache` dict: cache key to `(answer, expires_at)`. -/
abbrev CacheMap := String → Option (String × ℤ)

/-- Embedding of `_cache_get` (src/app.py lines 68-78).  Returns the looked-up
answer (or `none`) together with the dict after the lazy eviction
(`_cache.pop(key, None)` when `now >= expires_at`).  A stored pair is always
truthy in Python, so `if not item` fires exactly on a missing entry. -/
def cache_get (now : ℤ) (c : CacheMap) (key : String) : Option String × CacheMap :=
  match c key with
  | none => (none, c)
  | some (answer, expires_at) =>
    if expires_at ≤ now then (none, Function.update c key none)
    else (some answer, c)

/-- Embedding of `_cache_set` (src/app.py lines 81-84): store
`(answer, now + CACHE_TTL_SEC)`, overwriting any existing entry. -/
def cache_set (ttl : ℤ) (now : ℤ) (c : CacheMap) (key answer : String) : CacheMap :=
  Function.update c key (some (answer, now + ttl))

/-- Embedding of `_friendly_error_message` (src/app.py lines 87-96):
classify the textual form of a raised error into a message and HTTP code. -/
def friendly_error_message (err : String) : String × ℕ :=
  if str_contains err "429" || str_contains err "RESOURCE_EXHAUSTED"
      || str_contains (py_lower err) "quota" then
    ("Слишком много запросов или закончился лимит. Подожди минуту и попробуй снова.", 429)
  else if str_contains (py_lower err) "timeout" then
    ("Сервис отвечал слишком долго. Попробуй ещё раз.", 504)
  else
    ("Произошла ошибка на сервере. Попробуй позже.", 500)

/-- Lookup in an association list with a default, modelling Python's
`dict.get(key, default)` on the literal rule dicts below. -/
def dict_get {α : Type} (d : List (String × α)) (k : String) (dflt : α) : α :=
  ((d.find? (fun p => p.1 == k)).map Prod.snd).getD dflt

/-- The `GRADE_RULES` dict of src/app.py lines 100-138. -/
def GRADE_RULES : List (String × String) :=
  [("1-4", "\nУровень: младшая школа.\n\nОбъясняй максимально просто.\nКороткие предложения.\nМинимум терминов (0–1). Если используешь термин — объясни его сразу.\nНе используй сложные формулы.\nПример должен быть бытовым и понятным.\nБез сложных научных формулировок.\n"),
   ("5-6", "\nУровень: средние классы (базовый).\n\nМожно использовать 1–2 термина с обязательным пояснением.\nОбъяснение должно быть логичным и последовательным.\nДопустимы простые формулы или правила.\nБез избыточной теории.\n"),
   ("7-9", "\nУровень: основная школа.\n\nДопустимо 1–3 термина (каждый кратко пояснить).\nРазрешены формулы и учебные определения.\nОбъяснение должно быть структурированным.\nМожно указать 1 типичную ошибку (одним предложением).\n"),
   ("10-11", "\nУровень: старшая школа.\n\nМожно использовать точные формулировки.\nДопустимы формулы и краткие обоснования.\nБез вузовской глубины.\nСтруктура должна быть строгой и логичной.\n")]

/-- The `LEVEL_RULES` dict of src/app.py lines 140-165. -/
def LEVEL_RULES : List (String × String) :=
  [("Кратко", "\nФормат: сжато и чётко.\nКаждый пункт структуры обязателен.\nМинимум 2 предложения в каждом разделе.\nПример должен быть коротким, но завершённым.\nЕсли нужно сократить — сокращай формулировки, но не убирай пункты.\n"),
   ("Средне", "\nФормат: развернутое школьное объяснение.\nКаждый пункт структуры обязателен.\nПункт 2 (Пошаговое объяснение) — минимум 3 шага.\nПример — с полноценным разбором.\nНельзя завершать ответ до заполнения всех пунктов.\n"),
   ("Подробно", "\nФормат: максимально полное школьное объяснение.\nКаждый пункт структуры обязателен.\nПункт 2 — 4–6 логичных шагов.\nПункт 3 — 1–2 примера с разбором.\nЕсли не хватает объёма — сокращай детали, но не убирай структуру.\nОтвет считается завершённым только после пункта 5.\n")]

/-- The `STYLE_RULES` dict of src/app.py lines 167-186. -/
def STYLE_RULES : List (String × String) :=
  [("Простым языком", "\nИспользуй простые слова.\nЕсли встречается сложный термин — объясни его простыми словами.\nБез сложных конструкций.\n"),
   ("Как учитель", "\nОбъясняй спокойно и структурировано.\nМожно использовать фразы типа \"Важно:\" или \"Запомни:\".\nБез приветствий и разговорных вступлений.\n"),
   ("Научно", "\nИспользуй точные формулировки.\nДопустимы термины.\nБез разговорного стиля.\nБез лишней воды.\n")]

/-- The `MAX_TOKENS_BY_LEVEL` dict of src/app.py lines 23-27. -/
def MAX_TOKENS_BY_LEVEL : List (String × ℕ) :=
  [("Кратко", 800), ("Средне", 2000), ("Подробно", 4000)]

/-- The f-string template of `build_prompt` (src/app.py lines 194-231), as a
function of the interpolated values.  Note that the numeric output budget is
not among its inputs: it never appears in the prompt text. -/
def prompt_template (subject grade style topic grade_rule level_rule style_rule : String) :
    String :=
  "\nТы — образовательная система AI School Helper.\n\nСТРОГИЕ ПРАВИЛА (обязательны):\n\n1. Не использовать приветствия.\n2. Не повторять входные параметры (предмет, класс, стиль).\n3. Не писать вступлений.\n4. Начинать сразу с \"1. Определение\".\n5. Заполнить ВСЕ пункты структуры.\n6. Ответ не считается завершённым, пока не заполнен пункт 5.\n7. Если тема не относится к предмету \""
    ++ subject
    ++ "\" — кратко сообщи об этом и остановись.\n8. Не завершать ответ досрочно.\n9. Не добавлять лишние разделы.\n\nПредмет: "
    ++ subject ++ "\nКласс: " ++ grade ++ "\nСтиль: " ++ style
    ++ "\n\nПравила уровня:\n" ++ grade_rule
    ++ "\n\nПравила объема:\n" ++ level_rule
    ++ "\n\nСтиль подачи:\n" ++ style_rule
    ++ "\n\nСтруктура ответа (строго соблюдать порядок):\n\n1. Определение\n2. Пошаговое объяснение\n3. Пример\n4. Краткий вывод (2–3 тезиса)\n5. Проверь себя (1 вопрос)\n\nТема: "
    ++ topic ++ "\n"

/-- Embedding of `build_prompt` (src/app.py lines 189-231): resolve the three
rule texts with `.get(key, "")` and render the template. -/
def build_prompt (grade subject level style topic : String) : String :=
  let grade_rule := dict_get GRADE_RULES grade ""
  let level_rule := dict_get LEVEL_RULES level ""
  let style_rule := dict_get STYLE_RULES style ""
  prompt_template subject grade style topic grade_rule level_rule style_rule

/-- The five string fields of the JSON body, after Python's
`(data.get(field) or "")` has folded a missing or null field to `""` but
before `.strip()`. -/
structure Request where
  grade : String
  subject : String
  level : String
  style : String
  topic : String
  deriving DecidableEq, Repr

/-- The observable outcome of one `/generate` request, one constructor per
`return` site of the handler. -/
inductive Response where
  | rateLimited
  | badRequest
  | validationError
  | answer (text : String) (cached : Bool)
  | emptyGeneration
  | generationFailure (msg : String) (code : ℕ)
  deriving DecidableEq, Repr

/-- The process-wide mutable state: the `_ip_hits` dict and the `_cache`
dict. -/
structure AppState where
  ip_hits : String → List ℤ
  cache : CacheMap

/-- Python truthiness of the value `_cache_get` returned: `if cached:` is
false both on `None` and on an empty string. -/
def py_truthy : Option String → Bool
  | none => false
  | some s => s != ""

/-- Whether an association-list dict has an entry for `k` (`key in dict`). -/
def has_key {α : Type} (d : List (String × α)) (k : String) : Bool :=
  d.any (fun p => p.1 == k)

/-- The generation step failed: the Generator raised (`.error`) or the call
succeeded but `(response.text or "").strip()` is empty. -/
def gen_failed : Except String String → Bool
  | .error _ => true
  | .ok txt => py_strip txt == ""

/-- Claim-side predicate (from the spec's words, for claim C5): two topic
strings "differ only in whitespace or letter case", i.e. they agree after
deleting every whitespace character and folding letter case. -/
def eq_up_to_ws_case (s t : String) : Bool :=
  lower_chars (s.data.filter (fun c => !c.isWhitespace)) ==
    lower_chars (t.data.filter (fun c => !c.isWhitespace))

/-- Embedding of the `/generate` handler (src/app.py lines 252-299).
Inputs beyond the state: the clock reading `now`, the caller key `ip`
(from `_get_ip()`), the parsed JSON body (`none` models
`request.get_json(silent=True)` returning a falsy value), and the outcome
of the external `client.models.generate_content` call.  The result carries
the response, the new state, and `some (prompt, max_out)` exactly when the
Generator was invoked (with the arguments it was invoked with), `none` when
the handler returned before reaching the call. -/
def generate (N : ℕ) (W ttl : ℤ) (now : ℤ) (st : AppState) (ip : String)
    (data : Option Request) (genResult : Except String String) :
    Response × AppState × Option (String × ℕ) :=
  let rl := rate_limit_step N W st.ip_hits ip now
  let st1 : AppState := { st with ip_hits := rl.2 }
  if !rl.1 then (.rateLimited, st1, none)
  else
    match data with
    | none => (.badRequest, st1, none)
    | some d =>
      let grade := py_strip d.grade
      let subject := py_strip d.subject
      let level := py_strip d.level
      let style := py_strip d.style
      let topic := py_strip d.topic
      if topic = "" then (.validationError, st1, none)
      else
        let cache_key := make_cache_key_raw grade subject level style topic
        let cg := cache_get now st1.cache cache_key
        let st2 : AppState := { st1 with cache := cg.2 }
        if py_truthy cg.1 then (.answer (cg.1.getD "") true, st2, none)
        else
          let max_out := dict_get MAX_TOKENS_BY_LEVEL level 800
          let prompt := build_prompt grade subject level style topic
          match genResult with
          | .error e =>
            let fe := friendly_error_message e
            (.generationFailure fe.1 fe.2, st2, some (prompt, max_out))
          | .ok txt =>
            let answer := py_strip txt
            if answer = "" then (.emptyGeneration, st2, some (prompt, max_out))
            else
              (.answer answer false,
                { st2 with cache := cache_set ttl now st2.cache cache_key answer },
                some (prompt, max_out))

lemma run_checks_accept_all (N : ℕ) (W : ℤ) (ts : List ℤ) :
    ∀ (pre : List ℤ), pre.length + ts.length ≤ N →
      (∀ c ∈ ts, ∀ a ∈ pre ++ ts, c - a < W) →
      run_checks N W ts pre = (List.replicate ts.length true, pre ++ ts) := by
  induction ts with
  | nil => intro pre _ _; simp [run_checks]
  | cons t ts ih =>
    intro pre hlen hwin
    have hfilter : pre.filter (fun a => decide (t - a < W)) = pre := by
      rw [List.filter_eq_self]
      intro a ha
      simpa using hwin t (by simp) a (by simp [ha])
    have hlt : ¬ N ≤ pre.length := by
      simp only [List.length_cons] at hlen
      omega
    have hstep : rate_limit_check N W pre t = (true, pre ++ [t]) := by
      simp [rate_limit_check, hfilter, hlt]
    have hih := ih (pre ++ [t])
      (by simp only [List.length_append, List.length_cons, List.length_nil] at hlen ⊢; omega)
      (by
        intro c hc a ha
        refine hwin c (by simp [hc]) a ?_
        simp only [List.append_assoc, List.singleton_append] at ha
        simpa using ha)
    simp only [run_checks, hstep, hih, List.length_cons, List.replicate_succ,
      List.append_assoc, List.singleton_append]

/-- Claim C1: from an empty stored window, `N` admission checks within one
window length all return `true`, the `(N+1)`-th check within the same window
returns `false`, and a further check more than `W` seconds after every
admitted timestamp returns `true` again. -/
theorem C1_sliding_window_cycle (N : ℕ) (W : ℤ) (ts : List ℤ) (tNext tLater : ℤ)
    (hN : 0 < N) (hlen : ts.length = N)
    (hwin : ∀ a ∈ ts ++ [tNext], ∀ b ∈ ts ++ [tNext], b - a < W)
    (hlater : ∀ a ∈ ts, W < tLater - a) :
    (run_checks N W ts []).1 = List.replicate N true ∧
    (rate_limit_check N W (run_checks N W ts []).2 tNext).1 = false ∧
    (rate_limit_check N W (rate_limit_check N W (run_checks N W ts []).2 tNext).2 tLater).1
      = true := by
  have hwin0 : ∀ c ∈ ts, ∀ a ∈ ([] : List ℤ) ++ ts, c - a < W := by
    intro c hc a ha
    exact hwin a (List.mem_append_left _ (by simpa using ha)) c (List.mem_append_left _ hc)
  have hrun := run_checks_accept_all N W ts [] (by simpa using hlen.le) hwin0
  have hres : (run_checks N W ts []).1 = List.replicate N true := by
    rw [hrun, hlen]
  have hst : (run_checks N W ts []).2 = ts := by rw [hrun]; simp
  have hfilter2 : ts.filter (fun a => decide (tNext - a < W)) = ts := by
    rw [List.filter_eq_self]
    intro a ha
    simpa using hwin a (List.mem_append_left _ ha) tNext (by simp)
  have hnext : rate_limit_check N W ts tNext = (false, ts) := by
    simp [rate_limit_check, hfilter2, hlen]
  have hfilter3 : ts.filter (fun a => decide (tLater - a < W)) = [] := by
    rw [List.filter_eq_nil_iff]
    intro a ha
    simpa using not_lt.mpr (hlater a ha).le
  refine ⟨hres, ?_, ?_⟩
  · rw [hst, hnext]
  · rw [hst, hnext]
    simp [rate_limit_check, hfilter3, hN.ne']

theorem C1_sliding_window_cycle_witness :
    (run_checks 2 60 [0, 1] []).1 = List.replicate 2 true ∧
    (rate_limit_check 2 60 (run_checks 2 60 [0, 1] []).2 2).1 = false ∧
    (rate_limit_check 2 60 (rate_limit_check 2 60 (run_checks 2 60 [0, 1] []).2 2).2 100).1
      = true :=
  C1_sliding_window_cycle 2 60 [0, 1] 2 100 (by decide) (by decide) (by decide) (by decide)

/-- Claim C9: after a check at time `now` (with a window recorded in the
past, as the monotone clock guarantees), every remaining stored timestamp
lies within `[now - W, now]`. -/
theorem C9_window_interval (N : ℕ) (W : ℤ) (hits : List ℤ) (now : ℤ)
    (hW : 0 ≤ W) (hpast : ∀ t ∈ hits, t ≤ now) :
    ∀ t ∈ (rate_limit_check N W hits now).2, now - W ≤ t ∧ t ≤ now := by
  intro t ht
  simp only [rate_limit_check] at ht
  split at ht
  · rcases List.mem_filter.mp ht with ⟨hmem, hcond⟩
    have := of_decide_eq_true hcond
    exact ⟨by omega, hpast t hmem⟩
  · rcases List.mem_append.mp ht with hmem | hmem
    · rcases List.mem_filter.mp hmem with ⟨hmem', hcond⟩
      have := of_decide_eq_true hcond
      exact ⟨by omega, hpast t hmem'⟩
    · rcases List.mem_singleton.mp hmem with rfl
      exact ⟨by omega, le_refl _⟩

theorem C9_window_interval_witness : (10:ℤ) - 60 ≤ 5 ∧ (5:ℤ) ≤ 10 :=
  C9_window_interval 10 60 [5, -200] 10 (by decide) (by decide) 5 (by decide)

lemma rate_limit_check_length (N : ℕ) (W : ℤ) (l : List ℤ) (t : ℤ) (h : l.length ≤ N) :
    ((rate_limit_check N W l t).2).length ≤ N := by
  simp only [rate_limit_check]
  split
  · exact le_trans (List.length_filter_le _ _) h
  · next hcond =>
    rw [Nat.not_le] at hcond
    simp only [List.length_append, List.length_cons, List.length_nil]
    omega

/-- Claim C10: starting from the empty `_ip_hits` dict, after any sequence
of checks (in particular one with nondecreasing clock readings) every key's
stored window holds at most `N` timestamps. -/
theorem C10_window_length_bounded (N : ℕ) (W : ℤ) (calls : List (String × ℤ))
    (hmono : List.Chain' (· ≤ ·) (calls.map Prod.snd)) :
    ∀ k, (run_steps N W calls init_hits k).length ≤ N := by
  have main : ∀ (cs : List (String × ℤ)) (s : String → List ℤ),
      (∀ k, (s k).length ≤ N) → ∀ k, (run_steps N W cs s k).length ≤ N := by
    intro cs
    induction cs with
    | nil => intro s hs k; simpa [run_steps] using hs k
    | cons c cs ih =>
      intro s hs k
      have hstep : ∀ kq, ((rate_limit_step N W s c.1 c.2).2 kq).length ≤ N := by
        intro kq
        simp only [rate_limit_step]
        rcases eq_or_ne kq c.1 with rfl | hne
        · rw [Function.update_same]
          exact rate_limit_check_length N W (s c.1) c.2 (hs c.1)
        · rw [Function.update_noteq hne]
          exact hs kq
      have hrw : run_steps N W (c :: cs) s = run_steps N W cs (rate_limit_step N W s c.1 c.2).2 := by
        simp [run_steps, rate_limit_step]
      rw [hrw]
      exact ih _ hstep k
  exact main calls init_hits (by intro k; simp [init_hits])

theorem C10_window_length_bounded_witness :
    (run_steps 1 60 [("a", 0), ("a", 1)] init_hits "a").length ≤ 1 :=
  C10_window_length_bounded 1 60 [("a", 0), ("a", 1)] (by simp [List.chain'_cons]) "a"

/-- Claim C2 fails as stated: an entry whose expiry (10) is after `now` (5)
is returned, not treated as empty. -/
theorem C2_counterexample :
    (Function.update (fun _ => (none : Option (String × ℤ))) "k" (some ("v", 10)) : CacheMap) "k"
      = some ("v", 10) ∧
    (5:ℤ) ≤ 10 ∧
    (cache_get 5 (Function.update (fun _ => (none : Option (String × ℤ))) "k"
        (some ("v", 10))) "k").1 = some "v" := by
  refine ⟨by decide, by decide, by decide⟩

/-- Claim C2 (amended): `_cache_get` returns empty when there is no entry
for the key or when the entry's expiry is at or before `now` (removing the
entry in the latter case), and otherwise returns the stored answer. -/
theorem C2_cache_get_spec (now : ℤ) (c : CacheMap) (k : String) :
    (c k = none → cache_get now c k = (none, c)) ∧
    (∀ a e, c k = some (a, e) → e ≤ now →
      cache_get now c k = (none, Function.update c k none)) ∧
    (∀ a e, c k = some (a, e) → now < e → cache_get now c k = (some a, c)) := by
  refine ⟨?_, ?_, ?_⟩
  · intro h; simp [cache_get, h]
  · intro a e h he; simp [cache_get, h, he]
  · intro a e h he; simp [cache_get, h, not_le.mpr he]

theorem C2_cache_get_spec_witness :
    cache_get 12 (Function.update (fun _ => (none : Option (String × ℤ))) "k"
        (some ("v", 10))) "k"
      = (none, Function.update (Function.update (fun _ => (none : Option (String × ℤ))) "k"
          (some ("v", 10))) "k" none) :=
  (C2_cache_get_spec 12
    (Function.update (fun _ => (none : Option (String × ℤ))) "k" (some ("v", 10))) "k").2.1
    "v" 10 (by decide) (by decide)

lemma cache_get_after_set (ttl now nowq : ℤ) (c : CacheMap) (k a : String)
    (h : nowq < now + ttl) :
    cache_get nowq (cache_set ttl now c k a) k = (some a, cache_set ttl now c k a) := by
  simp [cache_get, cache_set, Function.update_same, not_le.mpr h]

/-- Claim C7: with a positive TTL, a get performed after `put(key, v)` but
before the TTL has elapsed returns `v`; the put unconditionally overwrote
any prior entry for the key. -/
theorem C7_put_then_get (ttl now nowq : ℤ) (c : CacheMap) (k a : String)
    (httl : 0 < ttl) (hord : now ≤ nowq) (h : nowq < now + ttl) :
    cache_get nowq (cache_set ttl now c k a) k = (some a, cache_set ttl now c k a) ∧
    cache_set ttl now c k a = Function.update c k (some (a, now + ttl)) :=
  ⟨cache_get_after_set ttl now nowq c k a h, rfl⟩

theorem C7_put_then_get_witness :
    cache_get 1 (cache_set 3600 0 (fun _ => none) "k" "v") "k"
      = (some "v", cache_set 3600 0 (fun _ => none) "k" "v") ∧
    cache_set 3600 0 (fun _ => none) "k" "v"
      = Function.update (fun _ => none) "k" (some ("v", 0 + 3600)) :=
  C7_put_then_get 3600 0 1 (fun _ => none) "k" "v" (by norm_num) (by norm_num) (by norm_num)

/-- Claim C5 fails as stated: the topics "a b" and "ab" differ only in
whitespace, yet the pre-hash strings (the SHA-256 inputs) differ, because
`strip().lower()` folds only leading/trailing whitespace. -/
theorem C5_counterexample :
    eq_up_to_ws_case "a b" "ab" = true ∧
    make_cache_key_raw "g" "s" "l" "st" "a b" ≠ make_cache_key_raw "g" "s" "l" "st" "ab" :=
  ⟨by decide, by decide⟩

/-- Claim C5 (amended): when the topics differ only in leading/trailing
whitespace or letter case (equal after `strip().lower()`), the derived keys
are equal and the second request hits the entry stored by the first. -/
theorem C5_key_normalization (g s l st t₁ t₂ : String) (ttl now nowq : ℤ) (c : CacheMap)
    (a : String)
    (h : py_lower (py_strip t₁) = py_lower (py_strip t₂)) (htime : nowq < now + ttl) :
    make_cache_key_raw g s l st t₁ = make_cache_key_raw g s l st t₂ ∧
    (cache_get nowq (cache_set ttl now c (make_cache_key_raw g s l st t₁) a)
        (make_cache_key_raw g s l st t₂)).1 = some a := by
  have hkey : make_cache_key_raw g s l st t₁ = make_cache_key_raw g s l st t₂ := by
    simp [make_cache_key_raw, h]
  refine ⟨hkey, ?_⟩
  rw [← hkey, cache_get_after_set ttl now nowq c _ a htime]

theorem C5_key_normalization_witness :
    make_cache_key_raw "g" "s" "l" "st" " Fractions"
      = make_cache_key_raw "g" "s" "l" "st" "fractions" ∧
    (cache_get 1 (cache_set 10 0 (fun _ => none)
        (make_cache_key_raw "g" "s" "l" "st" " Fractions") "ans")
        (make_cache_key_raw "g" "s" "l" "st" "fractions")).1 = some "ans" :=
  C5_key_normalization "g" "s" "l" "st" " Fractions" "fractions" 10 0 1 (fun _ => none) "ans"
    (by decide) (by norm_num)

/-- Claim C3 fails as stated: two tuples differing in the grade and subject
fields produce the same separator-joined pre-hash string, by injecting the
separator through a field value. -/
theorem C3_counterexample :
    make_cache_key_raw "a|b" "c" "l" "s" "t" = make_cache_key_raw "a" "b|c" "l" "s" "t" ∧
    ("a|b" : String) ≠ "a" :=
  ⟨by decide, by decide⟩

lemma sep_split (sep : Char) :
    ∀ (l₁ l₂ r₁ r₂ : List Char), sep ∉ l₁ → sep ∉ l₂ →
      l₁ ++ sep :: r₁ = l₂ ++ sep :: r₂ → l₁ = l₂ ∧ r₁ = r₂ := by
  intro l₁
  induction l₁ with
  | nil =>
    intro l₂ r₁ r₂ h₁ h₂ heq
    cases l₂ with
    | nil => simpa using heq
    | cons c l₂ =>
      simp only [List.nil_append, List.cons_append, List.cons.injEq] at heq
      exfalso; apply h₂; rw [heq.1]; exact List.mem_cons_self _ _
  | cons x l₁ ih =>
    intro l₂ r₁ r₂ h₁ h₂ heq
    cases l₂ with
    | nil =>
      simp only [List.cons_append, List.nil_append, List.cons.injEq] at heq
      exfalso; apply h₁; rw [← heq.1]; exact List.mem_cons_self _ _
    | cons y l₂ =>
      simp only [List.cons_append, List.cons.injEq] at heq
      obtain ⟨rfl, heq2⟩ := heq
      have hrec := ih l₂ r₁ r₂ (fun hm => h₁ (List.mem_cons_of_mem _ hm))
        (fun hm => h₂ (List.mem_cons_of_mem _ hm)) heq2
      exact ⟨by rw [hrec.1], hrec.2⟩

lemma bar_data : ("|" : String).data = ['|'] := rfl

lemma make_cache_key_raw_data (g s l st t : String) :
    (make_cache_key_raw g s l st t).data
      = g.data ++ '|' :: (s.data ++ '|' :: (l.data ++ '|' ::
          (st.data ++ '|' :: (py_lower (py_strip t)).data))) := by
  simp [make_cache_key_raw, String.data_append, bar_data, List.append_assoc]

/-- Claim C3 (amended): the pre-hash strings of two requests are distinct
whenever the two tuples differ in at least one field after normalization,
provided the separator character never occurs in the grade, subject,
level or style fields. -/
theorem C3_key_injective_sepfree (g₁ s₁ l₁ st₁ t₁ g₂ s₂ l₂ st₂ t₂ : String)
    (hg₁ : '|' ∉ g₁.data) (hs₁ : '|' ∉ s₁.data) (hl₁ : '|' ∉ l₁.data) (hst₁ : '|' ∉ st₁.data)
    (hg₂ : '|' ∉ g₂.data) (hs₂ : '|' ∉ s₂.data) (hl₂ : '|' ∉ l₂.data) (hst₂ : '|' ∉ st₂.data)
    (hdiff : ¬(g₁ = g₂ ∧ s₁ = s₂ ∧ l₁ = l₂ ∧ st₁ = st₂ ∧
      py_lower (py_strip t₁) = py_lower (py_strip t₂))) :
    make_cache_key_raw g₁ s₁ l₁ st₁ t₁ ≠ make_cache_key_raw g₂ s₂ l₂ st₂ t₂ := by
  intro heq
  apply hdiff
  have hd := congrArg String.data heq
  rw [make_cache_key_raw_data, make_cache_key_raw_data] at hd
  obtain ⟨e1, hd⟩ := sep_split '|' _ _ _ _ hg₁ hg₂ hd
  obtain ⟨e2, hd⟩ := sep_split '|' _ _ _ _ hs₁ hs₂ hd
  obtain ⟨e3, hd⟩ := sep_split '|' _ _ _ _ hl₁ hl₂ hd
  obtain ⟨e4, hd⟩ := sep_split '|' _ _ _ _ hst₁ hst₂ hd
  exact ⟨String.ext e1, String.ext e2, String.ext e3, String.ext e4, String.ext hd⟩

theorem C3_key_injective_sepfree_witness :
    make_cache_key_raw "a" "b" "c" "d" "e" ≠ make_cache_key_raw "aa" "b" "c" "d" "e" :=
  C3_key_injective_sepfree "a" "b" "c" "d" "e" "aa" "b" "c" "d" "e"
    (by decide) (by decide) (by decide) (by decide)
    (by decide) (by decide) (by decide) (by decide) (by decide)

/-- Claim C4 fails as stated: the handler runs the admission check before
validating the topic, so a rate-limited client sending an empty topic gets
the rate-limit failure, not the validation failure (and the window slot
state is consulted first). -/
theorem C4_counterexample :
    py_strip "" = "" ∧
    (generate 1 60 3600 60 ⟨Function.update init_hits "c" [(50 : ℤ)], fun _ => none⟩ "c"
        (some ⟨"g", "s", "l", "st", ""⟩) (.ok "x")).1 = Response.rateLimited ∧
    Response.rateLimited ≠ Response.validationError :=
  ⟨by decide, by decide, by decide⟩

/-- Claim C4 (amended): for a request that the admission check admits and
whose topic is empty after trimming, the response is the validation failure
(a constructor distinct from the rate-limit and generation failures) and the
Generator is never invoked. -/
theorem C4_validation_failure (N : ℕ) (W ttl now : ℤ) (st : AppState) (ip : String)
    (d : Request) (genResult : Except String String)
    (hallow : (rate_limit_check N W (st.ip_hits ip) now).1 = true)
    (htopic : py_strip d.topic = "") :
    (generate N W ttl now st ip (some d) genResult).1 = Response.validationError ∧
    (generate N W ttl now st ip (some d) genResult).2.2 = none ∧
    Response.validationError ≠ Response.rateLimited ∧
    Response.validationError ≠ Response.emptyGeneration := by
  refine ⟨?_, ?_, by decide, by decide⟩ <;>
    simp [generate, rate_limit_step, hallow, htopic]

theorem C4_validation_failure_witness :
    (generate 1 60 3600 0 ⟨init_hits, fun _ => none⟩ "c" (some ⟨"g", "s", "l", "st", " "⟩)
        (.ok "x")).1 = Response.validationError ∧
    (generate 1 60 3600 0 ⟨init_hits, fun _ => none⟩ "c" (some ⟨"g", "s", "l", "st", " "⟩)
        (.ok "x")).2.2 = none ∧
    Response.validationError ≠ Response.rateLimited ∧
    Response.validationError ≠ Response.emptyGeneration :=
  C4_validation_failure 1 60 3600 0 ⟨init_hits, fun _ => none⟩ "c" ⟨"g", "s", "l", "st", " "⟩
    (.ok "x") (by decide) (by decide)

lemma cache_get_miss_none (now : ℤ) (c : CacheMap) (key : String)
    (h : (cache_get now c key).1 = none) : (cache_get now c key).2 key = none := by
  rcases hc : c key with _ | ⟨a, e⟩
  · simp [cache_get, hc]
  · by_cases he : e ≤ now
    · simp [cache_get, hc, he]
    · simp [cache_get, hc, he] at h

/-- Claim C6: when the generation step fails (the Generator raises, or its
text is empty after stripping), nothing is written to the cache for the
request's key — which held no live entry, this being a cache miss — and the
admission decision recorded at the start of the request is kept. -/
theorem C6_failed_generation_state (N : ℕ) (W ttl now : ℤ) (st : AppState) (ip : String)
    (d : Request) (genResult : Except String String)
    (hallow : (rate_limit_check N W (st.ip_hits ip) now).1 = true)
    (htopic : py_strip d.topic ≠ "")
    (hmiss : (cache_get now st.cache (make_cache_key_raw (py_strip d.grade)
        (py_strip d.subject) (py_strip d.level) (py_strip d.style) (py_strip d.topic))).1
        = none)
    (hfail : gen_failed genResult = true) :
    ((generate N W ttl now st ip (some d) genResult).2.1).cache
        (make_cache_key_raw (py_strip d.grade) (py_strip d.subject) (py_strip d.level)
          (py_strip d.style) (py_strip d.topic)) = none ∧
    ((generate N W ttl now st ip (some d) genResult).2.1).ip_hits
        = (rate_limit_step N W st.ip_hits ip now).2 := by
  have hkeymiss := cache_get_miss_none now st.cache _ hmiss
  rcases genResult with e | txt
  · constructor <;>
      simp [generate, rate_limit_step, hallow, htopic, hmiss, py_truthy, hkeymiss]
  · have hempty : py_strip txt = "" := by simpa [gen_failed] using hfail
    constructor <;>
      simp [generate, rate_limit_step, hallow, htopic, hmiss, py_truthy, hempty, hkeymiss]

theorem C6_failed_generation_state_witness :
    ((generate 1 60 3600 0 ⟨init_hits, fun _ => none⟩ "c" (some ⟨"g", "s", "l", "st", "t"⟩)
        (.ok "")).2.1).cache
        (make_cache_key_raw (py_strip "g") (py_strip "s") (py_strip "l") (py_strip "st")
          (py_strip "t")) = none ∧
    ((generate 1 60 3600 0 ⟨init_hits, fun _ => none⟩ "c" (some ⟨"g", "s", "l", "st", "t"⟩)
        (.ok "")).2.1).ip_hits
        = (rate_limit_step 1 60 init_hits "c" 0).2 :=
  C6_failed_generation_state 1 60 3600 0 ⟨init_hits, fun _ => none⟩ "c" ⟨"g", "s", "l", "st", "t"⟩
    (.ok "") (by decide) (by decide) (by decide) (by decide)

lemma dict_get_default {α : Type} (d : List (String × α)) (k : String) (dflt : α)
    (h : has_key d k = false) : dict_get d k dflt = dflt := by
  have hfind : d.find? (fun p => p.1 == k) = none := by
    rw [List.find?_eq_none]
    intro p hp
    rw [has_key, List.any_eq_false] at h
    exact fun hc => h p hp hc
  simp [dict_get, hfind]

lemma generate_call_spec (N : ℕ) (W ttl now : ℤ) (st : AppState) (ip : String)
    (d : Request) (genResult : Except String String) (p : String) (b : ℕ)
    (h : (generate N W ttl now st ip (some d) genResult).2.2 = some (p, b)) :
    p = build_prompt (py_strip d.grade) (py_strip d.subject) (py_strip d.level)
        (py_strip d.style) (py_strip d.topic) ∧
    b = dict_get MAX_TOKENS_BY_LEVEL (py_strip d.level) 800 := by
  simp only [generate] at h
  split at h
  · simp at h
  · split at h
    · simp at h
    · split at h
      · simp at h
      · split at h
        · simp at h
          exact ⟨h.1.symm, h.2.symm⟩
        · split at h
          · simp at h
            exact ⟨h.1.symm, h.2.symm⟩
          · simp at h
            exact ⟨h.1.symm, h.2.symm⟩

/-- Claim C8: prompt construction and output-budget selection are total for
arbitrary grade/level/style values: each table lookup falls back to its
default rule text `""`, the budget falls back to 800, and on the generation
path the Generator receives that budget as the size ceiling while the
rendered prompt is the fixed template over the default rule texts (the
budget is not among the template's inputs). -/
theorem C8_default_fallbacks (N : ℕ) (W ttl now : ℤ) (st : AppState) (ip : String)
    (d : Request) (genResult : Except String String) (p : String) (b : ℕ)
    (hg : has_key GRADE_RULES (py_strip d.grade) = false)
    (hl : has_key LEVEL_RULES (py_strip d.level) = false)
    (hsy : has_key STYLE_RULES (py_strip d.style) = false)
    (hlv : has_key MAX_TOKENS_BY_LEVEL (py_strip d.level) = false)
    (hcall : (generate N W ttl now st ip (some d) genResult).2.2 = some (p, b)) :
    dict_get GRADE_RULES (py_strip d.grade) "" = "" ∧
    dict_get LEVEL_RULES (py_strip d.level) "" = "" ∧
    dict_get STYLE_RULES (py_strip d.style) "" = "" ∧
    b = 800 ∧
    p = prompt_template (py_strip d.subject) (py_strip d.grade) (py_strip d.style)
        (py_strip d.topic) "" "" "" := by
  have hcs := generate_call_spec N W ttl now st ip d genResult p b hcall
  refine ⟨dict_get_default _ _ _ hg, dict_get_default _ _ _ hl,
    dict_get_default _ _ _ hsy, ?_, ?_⟩
  · rw [hcs.2, dict_get_default _ _ _ hlv]
  · rw [hcs.1, build_prompt, dict_get_default _ _ _ hg, dict_get_default _ _ _ hl,
      dict_get_default _ _ _ hsy]

set_option maxRecDepth 200000 in
theorem C8_default_fallbacks_witness :
    dict_get GRADE_RULES (py_strip "") "" = "" ∧
    dict_get LEVEL_RULES (py_strip "") "" = "" ∧
    dict_get STYLE_RULES (py_strip "") "" = "" ∧
    800 = 800 ∧
    prompt_template "" "" "" "x" "" "" ""
      = prompt_template (py_strip "") (py_strip "") (py_strip "") (py_strip "x") "" "" "" :=
  C8_default_fallbacks 1 60 3600 0 ⟨init_hits, fun _ => none⟩ "c" ⟨"", "", "", "", "x"⟩
    (.ok "ans") (prompt_template "" "" "" "x" "" "" "") 800
    (by decide) (by decide) (by decide) (by decide) (by decide)
